import Mathlib

/-!
Shallow embedding of the dipstick application-metrics facade
(`src/app_metrics.rs`): metric kinds, scope commands, instrument wrappers
(Marker, Counter, Gauge, Timer), and the `AppMetrics` facade with its
name-qualification, instrument factories, prefix forking and flushing.

Modelling conventions:
* `u64` values are `Nat`, with the bound `< 2 ^ 64` stated explicitly where
  it matters.
* `f64` sampling rates are modelled as `Rat` (the only rate the code ever
  passes is the literal `1.0`).
* The effect of invoking a scope function (an `Arc<Fn(Scope<M>)>` in the
  source) is made observable as a trace: each operation returns the list of
  `(scope function, scope command)` pairs it dispatches, in order.  Cloning
  an `Arc` shares the same dispatch target, so a clone is the value itself.
* A Rust panic (the `unwrap()` on a failed numeric coercion) is `none`:
  the operation aborts and the trace it would have produced is absent.
-/

namespace Dipstick

/-- Metric kinds, from the repository's `core` module: the closed
enumeration `{Marker, Counter, Gauge, Timer}` passed to `Sink::new_metric`. -/
inductive Kind where
  | Marker
  | Counter
  | Gauge
  | Timer
deriving DecidableEq, Repr

/-- Scope commands, from the repository's `core` module: the two-variant
vocabulary `Write(metric, u64 value)` / `Flush` sent to a scope function. -/
inductive ScopeCmd (M : Type) where
  | Write (metric : M) (value : Nat)
  | Flush
deriving DecidableEq, Repr

/-- A numeric input value as accepted by the instrument recording methods
(`V: ToPrimitive`): an integer of any width and signedness, carried as its
mathematical value, or a floating-point number, carried as a rational. -/
inductive NumVal where
  | int (n : Int)
  | float (q : Rat)
deriving DecidableEq, Repr

/-- First value beyond the 64-bit unsigned range. -/
def U64_SIZE : Nat := 2 ^ 64

/-- Modelled from the spec: the numeric coercion `ToPrimitive::to_u64` used
by `count`, `value` and `interval_us` comes from the external `num` crate
(not under `src/`).  Per the spec, coercion to the 64-bit unsigned
transmission magnitude fails exactly when the value is negative,
fractional-losing, or overflows the 64-bit unsigned range, and is
value-preserving otherwise. -/
def to_u64 : NumVal → Option Nat
  | .int n => if 0 ≤ n ∧ n < (U64_SIZE : Int) then some n.toNat else none
  | .float q =>
      if 0 ≤ q ∧ q.den = 1 ∧ q < (U64_SIZE : Rat) then some q.num.toNat else none

/-- The values on which `to_u64` fails: negative, fractional-losing, or
overflowing the 64-bit unsigned range. -/
def Unrepresentable : NumVal → Prop
  | .int n => n < 0 ∨ (U64_SIZE : Int) ≤ n
  | .float q => q < 0 ∨ q.den ≠ 1 ∨ (U64_SIZE : Rat) ≤ q

/-- A dispatch observed on a scope function: which scope function was
invoked, and with which command. -/
abbrev Dispatch (M F : Type) := F × ScopeCmd M

/-- `Marker<M>`: a metric identity paired with a (clone of a) scope
function.  `F` is the type of scope function values. -/
structure Marker (M F : Type) where
  metric : M
  scope : F
deriving DecidableEq, Repr

/-- `Marker::mark`: `self.scope.as_ref()(Scope::Write(&self.metric, 1))`. -/
def Marker.mark (k : Marker M F) : List (Dispatch M F) :=
  [(k.scope, ScopeCmd.Write k.metric 1)]

/-- `Counter<M>`: a metric identity paired with a scope function. -/
structure Counter (M F : Type) where
  metric : M
  scope : F
deriving DecidableEq, Repr

/-- `Counter::count`:
`self.scope.as_ref()(Scope::Write(&self.metric, count.to_u64().unwrap()))`.
`none` is the panic of `unwrap()` on coercion failure: the call aborts and
nothing is dispatched. -/
def Counter.count (c : Counter M F) (v : NumVal) : Option (List (Dispatch M F)) :=
  (to_u64 v).map fun u => [(c.scope, ScopeCmd.Write c.metric u)]

/-- `Gauge<M>`: a metric identity paired with a scope function. -/
structure Gauge (M F : Type) where
  metric : M
  scope : F
deriving DecidableEq, Repr

/-- `Gauge::value`:
`self.scope.as_ref()(Scope::Write(&self.metric, value.to_u64().unwrap()))`. -/
def Gauge.value (g : Gauge M F) (v : NumVal) : Option (List (Dispatch M F)) :=
  (to_u64 v).map fun u => [(g.scope, ScopeCmd.Write g.metric u)]

/-- `Timer<M>`: a metric identity paired with a scope function. -/
structure Timer (M F : Type) where
  metric : M
  scope : F
deriving DecidableEq, Repr

/-- Modelled from the spec: `TimeHandle` lives in the repository's `core`
module (not under `src/`).  It captures a monotonic instant; instants are
modelled as a microsecond count on a monotonic clock. -/
structure TimeHandle where
  instant : Nat
deriving DecidableEq, Repr

/-- Modelled from the spec: `TimeHandle::now()` captures the current
instant, passed in explicitly as `now`. -/
def TimeHandle.now (now : Nat) : TimeHandle := ⟨now⟩

/-- Modelled from the spec: `TimeHandle::elapsed_us()` returns the number
of whole microseconds between the captured instant and the current instant
at call time (`now`). -/
def TimeHandle.elapsed_us (h : TimeHandle) (now : Nat) : Nat :=
  now - h.instant

/-- `Timer::interval_us`: dispatches
`Scope::Write(&self.metric, interval_us.to_u64().unwrap())` and returns the
interval argument unchanged (pass-through). -/
def Timer.interval_us (t : Timer M F) (v : NumVal) :
    Option (List (Dispatch M F) × NumVal) :=
  (to_u64 v).map fun u => ([(t.scope, ScopeCmd.Write t.metric u)], v)

/-- `Timer::start`: returns `TimeHandle::now()`; the current instant is
passed in explicitly. -/
def Timer.start (_t : Timer M F) (now : Nat) : TimeHandle :=
  TimeHandle.now now

/-- `Timer::stop`: `let elapsed_us = start_time.elapsed_us();
self.interval_us(elapsed_us)`.  Returns the dispatched trace and the
recorded elapsed value (a `u64` in the source). -/
def Timer.stop (t : Timer M F) (start_time : TimeHandle) (now : Nat) :
    Option (List (Dispatch M F) × Nat) :=
  let elapsed_us := start_time.elapsed_us now
  (Timer.interval_us t (NumVal.int elapsed_us)).map fun p => (p.1, elapsed_us)

/-- An event in the execution of `Timer::time`: either a scope dispatch, or
the user-supplied operation returning its result.  The event list makes the
order of effects observable. -/
inductive TimerEv (M F R : Type) where
  | dispatch (s : F) (c : ScopeCmd M)
  | opReturned (r : R)
deriving DecidableEq, Repr

/-- `Timer::time`: `let start_time = self.start(); let value = operations();
self.stop(start_time); value`.  The instants at which `start` and `stop`
read the clock are passed in explicitly; the event list records the
operation's return followed by the dispatches of `stop`, in order. -/
def Timer.time (t : Timer M F) (operations : Unit → R)
    (now_start now_stop : Nat) : Option (List (TimerEv M F R) × R) :=
  let start_time := Timer.start t now_start
  let value := operations ()
  (Timer.stop t start_time now_stop).map fun p =>
    (TimerEv.opReturned value :: p.1.map fun d => TimerEv.dispatch d.1 d.2, value)

/-- The `Sink<M>` capability from the repository's `core` module: a
backend-supplied factory for metric identities and scope functions.  `F` is
the type of scope function values. -/
structure Sink (M F : Type) where
  new_metric : Kind → String → Rat → M
  new_scope : Bool → F

/-- One `new_metric` request observed on a sink: the kind, qualified name
and sampling rate passed. -/
structure MetricRequest where
  kind : Kind
  name : String
  rate : Rat
deriving DecidableEq, Repr

/-- `AppMetrics<M, S>`: `{ prefix: String, sink: Arc<S>, scope: ScopeFn<M> }`.
The `prefix` field is named `pfx` here because `prefix` is a Lean keyword;
`Arc<S>` sharing makes the sink a plain field (clones are the same value). -/
structure AppMetrics (M F : Type) where
  pfx : String
  sink : Sink M F
  scope : F

/-- `AppMetrics::qualified_name`: if `self.prefix.is_empty()` return the
name unchanged; otherwise clone the prefix and `push_str` the name. -/
def AppMetrics.qualified_name (m : AppMetrics M F) (name : String) : String :=
  if m.pfx.isEmpty then name
  else m.pfx ++ name

/-- `AppMetrics::marker`: requests
`self.sink.new_metric(Kind::Marker, &self.qualified_name(name), 1.0)` and
pairs the identity with a clone of the facade's scope.  The second
component is the trace of `new_metric` requests issued (exactly the one
call the source makes). -/
def AppMetrics.marker (m : AppMetrics M F) (name : String) :
    Marker M F × List MetricRequest :=
  (⟨m.sink.new_metric Kind.Marker (m.qualified_name name) 1, m.scope⟩,
   [⟨Kind.Marker, m.qualified_name name, 1⟩])

/-- `AppMetrics::counter`: requests
`self.sink.new_metric(Kind::Counter, &self.qualified_name(name), 1.0)` and
pairs the identity with a clone of the facade's scope. -/
def AppMetrics.counter (m : AppMetrics M F) (name : String) :
    Counter M F × List MetricRequest :=
  (⟨m.sink.new_metric Kind.Counter (m.qualified_name name) 1, m.scope⟩,
   [⟨Kind.Counter, m.qualified_name name, 1⟩])

/-- `AppMetrics::timer`: requests
`self.sink.new_metric(Kind::Timer, &self.qualified_name(name), 1.0)` and
pairs the identity with a clone of the facade's scope. -/
def AppMetrics.timer (m : AppMetrics M F) (name : String) :
    Timer M F × List MetricRequest :=
  (⟨m.sink.new_metric Kind.Timer (m.qualified_name name) 1, m.scope⟩,
   [⟨Kind.Timer, m.qualified_name name, 1⟩])

/-- `AppMetrics::gauge`: requests
`self.sink.new_metric(Kind::Gauge, &self.qualified_name(name), 1.0)` and
pairs the identity with a clone of the facade's scope. -/
def AppMetrics.gauge (m : AppMetrics M F) (name : String) :
    Gauge M F × List MetricRequest :=
  (⟨m.sink.new_metric Kind.Gauge (m.qualified_name name) 1, m.scope⟩,
   [⟨Kind.Gauge, m.qualified_name name, 1⟩])

/-- `AppMetrics::with_prefix`: builds a new facade with the given prefix,
a clone of the sink handle and a clone of the scope function. -/
def AppMetrics.with_prefix (m : AppMetrics M F) (p : String) : AppMetrics M F :=
  { pfx := p, sink := m.sink, scope := m.scope }

/-- `AppMetrics::flush_scope`: `self.scope.as_ref()(Scope::Flush)`.  The
facade (a `&mut self` receiver that assigns no field) is returned unchanged
alongside the dispatched trace. -/
def AppMetrics.flush_scope (m : AppMetrics M F) :
    List (Dispatch M F) × AppMetrics M F :=
  ([(m.scope, ScopeCmd.Flush)], m)

/-- The free constructor `metrics(sink)`:
`let static_scope = sink.new_scope(true); AppMetrics { prefix: "", scope:
static_scope, sink: Arc::new(sink) }`.  The second component is the trace
of `new_scope` requests issued (exactly the one call, with `true`). -/
def metrics (sink : Sink M F) : AppMetrics M F × List Bool :=
  ({ pfx := "", sink := sink, scope := sink.new_scope true }, [true])

/-- A test backend capturing the arguments of every identity request: the
identity is the request triple itself; scope functions are trivial tokens. -/
def testSink : Sink (Kind × String × Rat) Unit where
  new_metric := fun k n r => (k, n, r)
  new_scope := fun _ => ()

/-- A concrete facade over `testSink` with prefix `"app."`. -/
def testApp : AppMetrics (Kind × String × Rat) Unit :=
  { pfx := "app.", sink := testSink, scope := () }

/-- Coercion of a `Nat`-valued integer below `2 ^ 64` succeeds and is
value-preserving. -/
theorem to_u64_int_ofNat (v : Nat) (hv : v < U64_SIZE) :
    to_u64 (NumVal.int v) = some v := by
  simp only [to_u64]
  rw [if_pos ⟨Int.natCast_nonneg v, by exact_mod_cast hv⟩]
  simp

/-- Coercion of a `Nat`-valued float below `2 ^ 64` succeeds and is
value-preserving. -/
theorem to_u64_float_ofNat (v : Nat) (hv : v < U64_SIZE) :
    to_u64 (NumVal.float v) = some v := by
  simp only [to_u64]
  rw [if_pos ⟨Nat.cast_nonneg v, Rat.den_natCast v, by exact_mod_cast hv⟩]
  simp

/-- `interval_us` on a `Nat`-valued interval below `2 ^ 64` dispatches one
`Write` of that value and passes the interval through. -/
theorem interval_us_nat (t : Timer M F) (e : Nat) (he : e < U64_SIZE) :
    Timer.interval_us t (NumVal.int e) =
      some ([(t.scope, ScopeCmd.Write t.metric e)], NumVal.int e) := by
  simp only [Timer.interval_us]
  rw [to_u64_int_ofNat e he]
  rfl

/-- C1: for every prefix P and every name N, `qualified_name` on a facade
with prefix P returns N unchanged when P is the empty string, and returns
the verbatim concatenation P ++ N (no separator inserted) when P is
non-empty. -/
theorem C1_qualified_name (M F : Type) (s : Sink M F) (f : F) (p n : String) :
    (p = "" → AppMetrics.qualified_name ⟨p, s, f⟩ n = n) ∧
    (p ≠ "" → AppMetrics.qualified_name ⟨p, s, f⟩ n = p ++ n) := by
  constructor
  · intro hp
    subst hp
    rfl
  · intro hp
    simp [AppMetrics.qualified_name, String.isEmpty_iff, hp]

/-- C1 witness: prefix `""` with name `"requests"` gives `"requests"`, and
prefix `"svc."` with name `"requests"` gives `"svc.requests"`. -/
theorem C1_qualified_name_witness :
    AppMetrics.qualified_name ⟨"", testSink, ()⟩ "requests" = "requests" ∧
    AppMetrics.qualified_name ⟨"svc.", testSink, ()⟩ "requests" = "svc.requests" :=
  ⟨(C1_qualified_name _ _ testSink () "" "requests").1 rfl,
   (C1_qualified_name _ _ testSink () "svc." "requests").2 (by decide)⟩

/-- C2: each instrument factory method issues exactly one `new_metric`
request with the matching kind, the qualified name and rate 1.0, and
returns a wrapper pairing the returned identity with the facade's scope
function; on a facade with prefix "app.", `counter "errors"` requests
(Counter, "app.errors", 1.0) and a subsequent `count 5` dispatches exactly
one `Write` of 5 on that identity. -/
theorem C2_factories (M F : Type) (s : Sink M F) (f : F) (p n : String) :
    (AppMetrics.marker ⟨p, s, f⟩ n =
      (⟨s.new_metric Kind.Marker (AppMetrics.qualified_name ⟨p, s, f⟩ n) 1, f⟩,
       [⟨Kind.Marker, AppMetrics.qualified_name ⟨p, s, f⟩ n, 1⟩]) ∧
     AppMetrics.counter ⟨p, s, f⟩ n =
      (⟨s.new_metric Kind.Counter (AppMetrics.qualified_name ⟨p, s, f⟩ n) 1, f⟩,
       [⟨Kind.Counter, AppMetrics.qualified_name ⟨p, s, f⟩ n, 1⟩]) ∧
     AppMetrics.gauge ⟨p, s, f⟩ n =
      (⟨s.new_metric Kind.Gauge (AppMetrics.qualified_name ⟨p, s, f⟩ n) 1, f⟩,
       [⟨Kind.Gauge, AppMetrics.qualified_name ⟨p, s, f⟩ n, 1⟩]) ∧
     AppMetrics.timer ⟨p, s, f⟩ n =
      (⟨s.new_metric Kind.Timer (AppMetrics.qualified_name ⟨p, s, f⟩ n) 1, f⟩,
       [⟨Kind.Timer, AppMetrics.qualified_name ⟨p, s, f⟩ n, 1⟩])) ∧
    (AppMetrics.counter ⟨"app.", s, f⟩ "errors").2 =
      [⟨Kind.Counter, "app.errors", 1⟩] ∧
    Counter.count (AppMetrics.counter ⟨"app.", s, f⟩ "errors").1 (NumVal.int 5) =
      some [(f, ScopeCmd.Write (s.new_metric Kind.Counter "app.errors" 1) 5)] := by
  refine ⟨⟨rfl, rfl, rfl, rfl⟩, rfl, rfl⟩

/-- C3: `with_prefix p2` returns a new facade whose prefix is exactly p2,
sharing the original sink and scope function; the original facade value is
untouched, and an instrument obtained from the original facade keeps its
qualified name (from the original prefix) and scope function and still
dispatches as before. -/
theorem C3_with_prefix_fork (M F : Type) (s : Sink M F) (f : F) (p p2 n : String) :
    AppMetrics.with_prefix ⟨p, s, f⟩ p2 = { pfx := p2, sink := s, scope := f } ∧
    AppMetrics.counter ⟨p, s, f⟩ n =
      (⟨s.new_metric Kind.Counter (AppMetrics.qualified_name ⟨p, s, f⟩ n) 1, f⟩,
       [⟨Kind.Counter, AppMetrics.qualified_name ⟨p, s, f⟩ n, 1⟩]) ∧
    Counter.count (AppMetrics.counter ⟨p, s, f⟩ n).1 (NumVal.int 5) =
      some [(f, ScopeCmd.Write
        (s.new_metric Kind.Counter (AppMetrics.qualified_name ⟨p, s, f⟩ n) 1) 5)] := by
  refine ⟨rfl, rfl, rfl⟩

/-- C4: a recorded value that is negative, fractional-losing, or overflows
the 64-bit unsigned range makes `count`, `value` and `interval_us` abort
(the coercion's `unwrap` panics), and no `Write` is dispatched. -/
theorem C4_coercion_aborts (M F : Type) (c : Counter M F) (g : Gauge M F)
    (t : Timer M F) (v : NumVal) (hv : Unrepresentable v) :
    Counter.count c v = none ∧ Gauge.value g v = none ∧
    Timer.interval_us t v = none := by
  have h : to_u64 v = none := by
    cases v with
    | int m =>
      simp only [Unrepresentable] at hv
      have hne : ¬(0 ≤ m ∧ m < (U64_SIZE : Int)) := by
        rintro ⟨h1, h2⟩
        rcases hv with h | h <;> omega
      simp [to_u64, hne]
    | float q =>
      simp only [Unrepresentable] at hv
      have hne : ¬(0 ≤ q ∧ q.den = 1 ∧ q < (U64_SIZE : Rat)) := by
        rintro ⟨h1, h2, h3⟩
        rcases hv with h | h | h
        · exact absurd h1 (not_le.mpr h)
        · exact h h2
        · exact absurd h3 (not_lt.mpr h)
      simp [to_u64, hne]
  simp [Counter.count, Gauge.value, Timer.interval_us, h]

/-- C4 witness: recording -1 aborts all three operations with nothing
dispatched. -/
theorem C4_coercion_aborts_witness :
    Unrepresentable (NumVal.int (-1)) ∧
    (Counter.count (⟨(), ()⟩ : Counter Unit Unit) (NumVal.int (-1)) = none ∧
     Gauge.value (⟨(), ()⟩ : Gauge Unit Unit) (NumVal.int (-1)) = none ∧
     Timer.interval_us (⟨(), ()⟩ : Timer Unit Unit) (NumVal.int (-1)) = none) :=
  ⟨Or.inl (by decide),
   C4_coercion_aborts Unit Unit ⟨(), ()⟩ ⟨(), ()⟩ ⟨(), ()⟩ (NumVal.int (-1))
     (Or.inl (by decide))⟩

/-- C5: coercion is value-preserving for in-range values: recording a
mathematical value below `2 ^ 64` through `count`, whether as an integer or
as a (whole) floating-point number, dispatches a `Write` carrying the same
u64 magnitude. -/
theorem C5_value_preserving (M F : Type) (c : Counter M F) (v : Nat)
    (hv : v < U64_SIZE) :
    Counter.count c (NumVal.int v) =
      some [(c.scope, ScopeCmd.Write c.metric v)] ∧
    Counter.count c (NumVal.float v) =
      some [(c.scope, ScopeCmd.Write c.metric v)] := by
  constructor
  · simp only [Counter.count]
    rw [to_u64_int_ofNat v hv]
    rfl
  · simp only [Counter.count]
    rw [to_u64_float_ofNat v hv]
    rfl

/-- C5 witness: `count 3`, as integer and as float, both dispatch
`Write(identity, 3)`. -/
theorem C5_value_preserving_witness :
    Counter.count (⟨(), ()⟩ : Counter Unit Unit) (NumVal.int 3) =
      some [((), ScopeCmd.Write () 3)] ∧
    Counter.count (⟨(), ()⟩ : Counter Unit Unit) (NumVal.float 3) =
      some [((), ScopeCmd.Write () 3)] :=
  ⟨(C5_value_preserving Unit Unit ⟨(), ()⟩ 3 (by decide)).1,
   (C5_value_preserving Unit Unit ⟨(), ()⟩ 3 (by decide)).2⟩

/-- C6: `stop h` computes the elapsed microseconds since h's captured
instant, dispatches exactly one `Write` carrying that value, and returns
it; called at two times on the same handle, each call reports the interval
since the handle's original capture, not since the previous stop. -/
theorem C6_stop (M F : Type) (t : Timer M F) (h : TimeHandle)
    (now1 now2 : Nat) (h1 : now1 - h.instant < U64_SIZE)
    (h2 : now2 - h.instant < U64_SIZE) :
    Timer.stop t h now1 =
      some ([(t.scope, ScopeCmd.Write t.metric (now1 - h.instant))],
        now1 - h.instant) ∧
    Timer.stop t h now2 =
      some ([(t.scope, ScopeCmd.Write t.metric (now2 - h.instant))],
        now2 - h.instant) := by
  constructor
  · simp only [Timer.stop, TimeHandle.elapsed_us]
    rw [interval_us_nat t _ h1]
    rfl
  · simp only [Timer.stop, TimeHandle.elapsed_us]
    rw [interval_us_nat t _ h2]
    rfl

/-- C6 witness: a handle captured at instant 5, stopped at instants 12 and
30, reports 7 and then 25 — each measured from the original capture. -/
theorem C6_stop_witness :
    Timer.stop (⟨(), ()⟩ : Timer Unit Unit) ⟨5⟩ 12 =
      some ([((), ScopeCmd.Write () 7)], 7) ∧
    Timer.stop (⟨(), ()⟩ : Timer Unit Unit) ⟨5⟩ 30 =
      some ([((), ScopeCmd.Write () 25)], 25) :=
  C6_stop Unit Unit ⟨(), ()⟩ ⟨5⟩ 12 30 (by decide) (by decide)

/-- C7: `time op` runs `op` exactly once between `start` and `stop`,
returns `op`'s result unchanged, and the single timing `Write` (of the
elapsed interval) is dispatched after `op` returns. -/
theorem C7_time (M F R : Type) (t : Timer M F) (op : Unit → R)
    (ns nf : Nat) (hh : nf - ns < U64_SIZE) :
    Timer.time t op ns nf =
      some ([TimerEv.opReturned (op ()),
             TimerEv.dispatch t.scope (ScopeCmd.Write t.metric (nf - ns))],
            op ()) := by
  simp only [Timer.time, Timer.start, TimeHandle.now, Timer.stop,
    TimeHandle.elapsed_us]
  rw [interval_us_nat t _ hh]
  rfl

/-- C7 witness: timing a constant operation between instants 2 and 9
returns the operation's result 42 and dispatches one `Write` of 7 after the
operation returned. -/
theorem C7_time_witness :
    Timer.time (⟨(), ()⟩ : Timer Unit Unit) (fun _ => (42 : Nat)) 2 9 =
      some ([TimerEv.opReturned 42, TimerEv.dispatch () (ScopeCmd.Write () 7)],
        42) :=
  C7_time Unit Unit Nat ⟨(), ()⟩ (fun _ => (42 : Nat)) 2 9 (by decide)

/-- C8: `flush_scope` dispatches exactly one `Flush` command on the
facade's own scope function, no `Write`, and leaves the facade (prefix,
sink, scope) unchanged. -/
theorem C8_flush_scope (M F : Type) (m : AppMetrics M F) :
    AppMetrics.flush_scope m = ([(m.scope, ScopeCmd.Flush)], m) := rfl

/-- C9: `metrics sink` builds the static facade from exactly one
`new_scope true` call (auto-flush enabled) with the empty prefix, so a name
requested on the fresh facade is passed to `new_metric` unqualified. -/
theorem C9_metrics (M F : Type) (s : Sink M F) (n : String) :
    metrics s = ({ pfx := "", sink := s, scope := s.new_scope true }, [true]) ∧
    (AppMetrics.counter (metrics s).1 n).2 = [⟨Kind.Counter, n, 1⟩] :=
  ⟨rfl, rfl⟩

/-- C10: for any unsigned (hence in-range, non-negative) input, `count`,
`value` and `interval_us` never abort and dispatch exactly one `Write` of
the input's value; consequently `stop` never aborts, since the elapsed time
it records is a u64. -/
theorem C10_unsigned_never_aborts (M F : Type) (c : Counter M F)
    (g : Gauge M F) (t : Timer M F) (h : TimeHandle) (now v : Nat)
    (hv : v < U64_SIZE) (hn : now - h.instant < U64_SIZE) :
    Counter.count c (NumVal.int v) =
      some [(c.scope, ScopeCmd.Write c.metric v)] ∧
    Gauge.value g (NumVal.int v) =
      some [(g.scope, ScopeCmd.Write g.metric v)] ∧
    Timer.interval_us t (NumVal.int v) =
      some ([(t.scope, ScopeCmd.Write t.metric v)], NumVal.int v) ∧
    Timer.stop t h now =
      some ([(t.scope, ScopeCmd.Write t.metric (now - h.instant))],
        now - h.instant) := by
  refine ⟨?_, ?_, interval_us_nat t v hv, ?_⟩
  · simp only [Counter.count]
    rw [to_u64_int_ofNat v hv]
    rfl
  · simp only [Gauge.value]
    rw [to_u64_int_ofNat v hv]
    rfl
  · simp only [Timer.stop, TimeHandle.elapsed_us]
    rw [interval_us_nat t _ hn]
    rfl

/-- C10 witness: the u64 input 6 is recorded by all three operations
without aborting, and a stop over a 4-microsecond interval records 4. -/
theorem C10_unsigned_never_aborts_witness :
    Counter.count (⟨(), ()⟩ : Counter Unit Unit) (NumVal.int 6) =
      some [((), ScopeCmd.Write () 6)] ∧
    Gauge.value (⟨(), ()⟩ : Gauge Unit Unit) (NumVal.int 6) =
      some [((), ScopeCmd.Write () 6)] ∧
    Timer.interval_us (⟨(), ()⟩ : Timer Unit Unit) (NumVal.int 6) =
      some ([((), ScopeCmd.Write () 6)], NumVal.int 6) ∧
    Timer.stop (⟨(), ()⟩ : Timer Unit Unit) ⟨10⟩ 14 =
      some ([((), ScopeCmd.Write () 4)], 4) :=
  C10_unsigned_never_aborts Unit Unit ⟨(), ()⟩ ⟨(), ()⟩ ⟨(), ()⟩ ⟨10⟩ 14 6
    (by decide) (by decide)

end Dipstick
